import Mathlib

/-!
Shallow embedding of the SQL dynamic-secret provider
(`sql-database.ts`, `SqlDatabaseProvider`): credential generation,
provider-input validation, knex client construction, gateway routing and
the four lifecycle entry points (`validateConnection`, `create`,
`revoke`, `renew`).  Backend I/O is modelled by an explicit backend
step function on an abstract database state, and each entry point
returns its result together with the ordered trace of session / render /
transaction events it performed.
-/

namespace SqlDyn

/-- Backend dialect enum.  Modelled from the spec: the `SqlProviders`
enum lives in `./models`, which is not part of the excerpt; the source
references `SqlProviders.Oracle` and `SqlProviders.MsSQL`, and the spec
describes "an enum over supported dialects". -/
inductive SqlProviders where
  | Postgres
  | MySQL
  | Oracle
  | MsSQL
deriving DecidableEq, Repr

/-- `EXTERNAL_REQUEST_TIMEOUT = 10 * 1000` from the source. -/
def EXTERNAL_REQUEST_TIMEOUT : Nat := 10 * 1000

/-- The password alphabet string literal of `generatePassword`,
verbatim from the source. -/
def passwordCharset : String :=
  "abcdefghijklmnopqrstuvwxyzABCDEFGHIJKLMNOPQRSTUVWXYZ0123456789-_.~!*"

/-- Model of nanoid generation: a string of `size` characters drawn
from `alphabet` by an arbitrary random index source `rng` (the real
generator uses a cryptographically strong source; any `Nat → Nat`
stream over-approximates it). -/
def nanoidGen (alphabet : String) (size : Nat) (rng : Nat → Nat) : String :=
  String.mk ((List.range size).map
    (fun i => alphabet.toList.getD (rng i % alphabet.length) (Char.ofNat 97)))

/-- Model of nanoid `customAlphabet(alphabet, defaultSize)`: returns a
generator taking an optional explicit size (defaulting to
`defaultSize`) and the random source. -/
def customAlphabet (alphabet : String) (defaultSize : Nat)
    (size : Option Nat) (rng : Nat → Nat) : String :=
  nanoidGen alphabet (size.getD defaultSize) rng

/-- `generatePassword` from the source: Oracle gets size 30, everything
else 48; the charset and the default size 48 are passed to
`customAlphabet` and the explicit `size` to the generator. -/
def generatePassword (provider : SqlProviders) (rng : Nat → Nat) : String :=
  let size := if provider = SqlProviders.Oracle then 30 else 48
  customAlphabet passwordCharset 48 (some size) rng

/-- Modelled from the spec: `alphaNumericNanoId` comes from
`@app/lib/nanoid`, which is not in the excerpt; §4.1 says "Username is a
32-character alphanumeric token", so its alphabet is the 62
alphanumeric characters. -/
def alphaNumericCharset : String :=
  "abcdefghijklmnopqrstuvwxyzABCDEFGHIJKLMNOPQRSTUVWXYZ0123456789"

/-- Modelled from the spec: `alphaNumericNanoId(n)` generates an
`n`-character alphanumeric token. -/
def alphaNumericNanoId (size : Nat) (rng : Nat → Nat) : String :=
  nanoidGen alphaNumericCharset size rng

/-- Model of JavaScript `String.prototype.toUpperCase` restricted to
the characters that occur here (per-character uppercasing). -/
def jsToUpperCase (s : String) : String :=
  String.mk (s.toList.map Char.toUpper)

/-- `generateUsername` from the source: 32 alphanumeric characters,
uppercased for Oracle. -/
def generateUsername (provider : SqlProviders) (rng : Nat → Nat) : String :=
  if provider = SqlProviders.Oracle then jsToUpperCase (alphaNumericNanoId 32 rng)
  else alphaNumericNanoId 32 rng

/-! ## Templates (handlebars model) -/

/-- The variables a lifecycle template may reference. -/
inductive TmplField where
  | username
  | password
  | expiration
  | database
deriving DecidableEq, Repr

/-- A compiled handlebars template is a sequence of literal chunks and
variable references (logic-less substitution only). -/
inductive Chunk where
  | lit (s : String)
  | var (f : TmplField)
deriving DecidableEq, Repr

/-- A template as stored in the provider config: either a chunk list,
or malformed source text whose compilation/rendering throws. -/
inductive Tmpl where
  | chunks (cs : List Chunk)
  | malformed
deriving DecidableEq, Repr

/-- The binding set handed to the renderer. -/
structure Ctx where
  username : Option String
  password : Option String
  expiration : Option String
  database : Option String
deriving DecidableEq, Repr

def Ctx.lookup (ctx : Ctx) : TmplField → Option String
  | .username => ctx.username
  | .password => ctx.password
  | .expiration => ctx.expiration
  | .database => ctx.database

/-- Handlebars default HTML-entity escaping (`escapeExpression`): the
seven characters `&` `<` `>` `"` (39) (96) `=` are replaced by their
entity forms; every other character is kept. -/
def hbEscapeChar (c : Char) : String :=
  if c = Char.ofNat 38 then "&amp;"
  else if c = Char.ofNat 60 then "&lt;"
  else if c = Char.ofNat 62 then "&gt;"
  else if c = Char.ofNat 34 then "&quot;"
  else if c = Char.ofNat 39 then "&#x27;"
  else if c = Char.ofNat 96 then "&#x60;"
  else if c = Char.ofNat 61 then "&#x3D;"
  else String.mk [c]

def hbEscape (s : String) : String :=
  String.join (s.toList.map hbEscapeChar)

/-- Render one chunk: a literal is copied; a variable is looked up
(handlebars renders a missing binding as the empty string) and, when
`escape` is set (default compilation, no `noEscape`), HTML-escaped. -/
def renderChunk (escape : Bool) (ctx : Ctx) : Chunk → String
  | .lit s => s
  | .var f =>
    let v := (ctx.lookup f).getD ""
    if escape then hbEscape v else v

/-- `handlebars.compile(tmpl, opts)(ctx)`: throws on a malformed
template, otherwise concatenates the rendered chunks.  `escape = false`
corresponds to compiling with `\x7b noEscape: true \x7d`. -/
def renderTmpl (t : Tmpl) (escape : Bool) (ctx : Ctx) : Except Unit String :=
  match t with
  | .malformed => .error ()
  | .chunks cs => .ok (String.join (cs.map (renderChunk escape ctx)))

/-- Model of JavaScript `String.prototype.split` with a one-character
separator, on the underlying character list. -/
def splitCharAux (sep : Char) : List Char → List (List Char)
  | [] => [[]]
  | c :: rest =>
    let r := splitCharAux sep rest
    if c = sep then [] :: r
    else
      match r with
      | [] => [[c]]
      | h :: t => (c :: h) :: t

/-- JavaScript `s.split(sep)` for a single-character separator. -/
def jsSplit (sep : Char) (s : String) : List String :=
  (splitCharAux sep s.toList).map String.mk

/-- `creationStatement.toString().split(";").filter(Boolean)` from the
source: split the rendered text on the separator and drop empty
fragments. -/
def splitStatements (sqlText : String) : List String :=
  (jsSplit (Char.ofNat 59) sqlText).filter (fun q => q != "")

/-! ## Provider inputs and validation -/

/-- The parsed provider configuration
(`z.infer<typeof DynamicSecretSqlDBSchema>`).  The schema itself lives
in `./models` outside the excerpt; the fields are exactly those the
source reads from `providerInputs`. -/
structure SqlProviderInputs where
  client : SqlProviders
  host : String
  port : Nat
  database : String
  username : String
  password : String
  ca : Option String
  creationStatement : Tmpl
  revocationStatement : Tmpl
  renewStatement : Option Tmpl
  projectGatewayId : Option String
deriving DecidableEq, Repr

/-- Modelled from the spec: the private/loopback host-literal check
used by `verifyHostInputValidity` (in `../dynamic-secret-fns`, not in
the excerpt): loopback names/addresses and RFC1918-style prefixes. -/
def strHasPrefix (s p : String) : Bool :=
  p.toList.isPrefixOf s.toList

def isPrivateOrLoopbackHost (host : String) : Bool :=
  host = "localhost" || host = "127.0.0.1" || host = "::1" ||
  strHasPrefix host "10." || strHasPrefix host "192.168." || strHasPrefix host "172.16."

/-- Modelled from the spec: `verifyHostInputValidity(host, isGateway)`
(§4.2): with a gateway, private/loopback literals are permitted; without
one they are rejected.  `true` means the check passes; the real
function throws on violation. -/
def verifyHostInputValidity (host : String) (isGateway : Bool) : Bool :=
  isGateway || !(isPrivateOrLoopbackHost host)

/-- The engine's error taxonomy, as far as the excerpt distinguishes
outcomes: schema/host validation failure, template
compilation/rendering failure, and backend statement failure. -/
inductive EngineError where
  | validation
  | template
  | execution
deriving DecidableEq, Repr

/-- `validateProviderInputs` from the source: parse, then host-safety
check keyed on `Boolean(providerInputs.projectGatewayId)`. -/
def validateProviderInputs (inputs : SqlProviderInputs) :
    Except EngineError SqlProviderInputs :=
  if verifyHostInputValidity inputs.host inputs.projectGatewayId.isSome then
    .ok inputs
  else
    .error .validation

/-! ## knex client model -/

/-- The `ssl` object passed to knex when a CA is configured. -/
structure KnexSslOptions where
  rejectUnauthorized : Bool
  ca : String
deriving DecidableEq, Repr

/-- The MsSQL-specific `options` passed straight to the tedious
driver. -/
structure MsSqlTransportOptions where
  trustServerCertificate : Bool
  cryptoCredentialsCa : Option String
deriving DecidableEq, Repr

/-- The `connection` block handed to `knex(...)`. -/
structure KnexConnection where
  database : String
  port : Nat
  host : String
  user : String
  password : String
  ssl : Option KnexSslOptions
  options : Option MsSqlTransportOptions
deriving DecidableEq, Repr

/-- The full knex client configuration built by `$getClient`. -/
structure KnexClient where
  connection : KnexConnection
  acquireConnectionTimeout : Nat
deriving DecidableEq, Repr

/-- `$getClient` from the source: `ssl` is present with
`rejectUnauthorized: false` exactly when a CA is supplied; the MsSQL
driver options set `trustServerCertificate` to the absence of a CA and
pass the CA (or an empty object) as crypto credentials. -/
def getClient (providerInputs : SqlProviderInputs) : KnexClient :=
  let ssl : Option KnexSslOptions :=
    match providerInputs.ca with
    | some ca => some { rejectUnauthorized := false, ca := ca }
    | none => none
  let options : Option MsSqlTransportOptions :=
    if providerInputs.client = SqlProviders.MsSQL then
      some { trustServerCertificate := providerInputs.ca.isNone,
             cryptoCredentialsCa := providerInputs.ca }
    else none
  { connection :=
      { database := providerInputs.database
        port := providerInputs.port
        host := providerInputs.host
        user := providerInputs.username
        password := providerInputs.password
        ssl := ssl
        options := options }
    acquireConnectionTimeout := EXTERNAL_REQUEST_TIMEOUT }

/-! ## Backend and traces -/

/-- Abstract backend database state: the set/list of facts the backend
holds (e.g. existing principals). -/
abbrev DBState := List String

/-- A backend is a step function: executing one raw statement either
yields a new state or fails (`none`). -/
structure Backend where
  run : String → DBState → Option DBState

/-- Run statements sequentially; `none` as soon as one fails. -/
def runQueries (bk : Backend) (qs : List String) (s : DBState) : Option DBState :=
  match qs with
  | [] => some s
  | q :: rest =>
    match bk.run q s with
    | none => none
    | some s2 => runQueries bk rest s2

/-- Observable events of one lifecycle call, in order. -/
inductive Event where
  | tunnelOpened (localPort : Nat)
  | clientOpened (conn : KnexConnection)
  | clientClosed
  | rendered (ctx : Ctx) (escaped : Bool)
  | txRan (queries : List String) (committed : Bool)
deriving DecidableEq, Repr

def countOpened (evs : List Event) : Nat :=
  evs.countP (fun e => match e with | .clientOpened _ => true | _ => false)

def countClosed (evs : List Event) : Nat :=
  evs.countP (fun e => match e with | .clientClosed => true | _ => false)

instance {ε α : Type} [DecidableEq ε] [DecidableEq α] : DecidableEq (Except ε α) := fun
  | .error e, .error f => decidable_of_iff (e = f) (by simp)
  | .error _, .ok _ => isFalse (by simp)
  | .ok _, .error _ => isFalse (by simp)
  | .ok a, .ok b => decidable_of_iff (a = b) (by simp)

/-- Outcome of one entry-point invocation: its result, the event trace,
and the final backend state. -/
structure RunOut (α : Type) where
  result : Except EngineError α
  events : List Event
  state : DBState
deriving DecidableEq

/-- The (host, port) the gateway callback is invoked with: inside
`gatewayProxyWrapper` the callback receives `("localhost", port)` for
the tunnel's ephemeral local port; on the direct path the callback
defaults to the configured host and port. -/
def resolvedEndpoint (providerInputs : SqlProviderInputs) (ephemeralPort : Nat) :
    String × Nat :=
  match providerInputs.projectGatewayId with
  | some _ => ("localhost", ephemeralPort)
  | none => (providerInputs.host, providerInputs.port)

/-- Tag a callback's trace with the tunnel event when the call is
routed through `gatewayProxyWrapper` (`withGatewayProxy` is modelled
from the spec: it opens a local ephemeral port, runs the callback, and
tears the tunnel down on every exit path). -/
def withTunnel (providerInputs : SqlProviderInputs) (ephemeralPort : Nat)
    (evs : List Event) : List Event :=
  match providerInputs.projectGatewayId with
  | some _ => Event.tunnelOpened ephemeralPort :: evs
  | none => evs

/-! ## Entry points -/

/-- The liveness probe statement: Oracle needs a FROM clause. -/
def testStatementFor (client : SqlProviders) : String :=
  if client = SqlProviders.Oracle then "SELECT 1 FROM DUAL" else "SELECT 1"

/-- `validateConnection` from the source.  Note the callback body runs
`db.raw(testStatement)` and only then `db.destroy()`, with no
`try/finally`: on probe failure the error propagates with the session
still open, and `isConnected` (initialised `false`) is only ever set on
the success path. -/
def validateConnection (inputs : SqlProviderInputs) (ephemeralPort : Nat)
    (bk : Backend) (s : DBState) : RunOut Bool :=
  match validateProviderInputs inputs with
  | .error e => ⟨.error e, [], s⟩
  | .ok providerInputs =>
    let (host, port) := resolvedEndpoint providerInputs ephemeralPort
    let db := getClient { providerInputs with host := host, port := port }
    let testStatement := testStatementFor providerInputs.client
    match bk.run testStatement s with
    | none =>
      ⟨.error .execution,
       withTunnel providerInputs ephemeralPort [.clientOpened db.connection], s⟩
    | some s2 =>
      ⟨.ok true,
       withTunnel providerInputs ephemeralPort
         [.clientOpened db.connection, .clientClosed], s2⟩

/-- The payload returned by `create`. -/
structure CreateData where
  DB_USERNAME : String
  DB_PASSWORD : String
deriving DecidableEq, Repr

structure CreateResult where
  entityId : String
  data : CreateData
deriving DecidableEq, Repr

/-- The context `create` renders with. -/
def createCtx (username password expiration database : String) : Ctx :=
  { username := some username, password := some password,
    expiration := some expiration, database := some database }

/-- `create` from the source: validate, generate a credential pair,
render the creation template with `noEscape: true`, split on `";"`,
run every fragment inside one transaction, destroy the session in
`finally`, and return the username as entity id plus the credential
payload.  `isoOf` models `new Date(expireAt).toISOString()`. -/
def create (inputs : SqlProviderInputs) (ephemeralPort : Nat) (bk : Backend)
    (rngU rngP : Nat → Nat) (isoOf : Int → String) (expireAt : Int)
    (s : DBState) : RunOut CreateResult :=
  match validateProviderInputs inputs with
  | .error e => ⟨.error e, [], s⟩
  | .ok providerInputs =>
    let username := generateUsername providerInputs.client rngU
    let password := generatePassword providerInputs.client rngP
    let (host, port) := resolvedEndpoint providerInputs ephemeralPort
    let db := getClient { providerInputs with host := host, port := port }
    let database := providerInputs.database
    let expiration := isoOf expireAt
    let ctx := createCtx username password expiration database
    match renderTmpl providerInputs.creationStatement false ctx with
    | .error _ =>
      ⟨.error .template,
       withTunnel providerInputs ephemeralPort
         [.clientOpened db.connection, .clientClosed], s⟩
    | .ok creationStatement =>
      let queries := splitStatements creationStatement
      match runQueries bk queries s with
      | none =>
        ⟨.error .execution,
         withTunnel providerInputs ephemeralPort
           [.clientOpened db.connection, .rendered ctx false,
            .txRan queries false, .clientClosed], s⟩
      | some s2 =>
        ⟨.ok { entityId := username,
               data := { DB_USERNAME := username, DB_PASSWORD := password } },
         withTunnel providerInputs ephemeralPort
           [.clientOpened db.connection, .rendered ctx false,
            .txRan queries true, .clientClosed], s2⟩

/-- The context `revoke` renders with: username and database only. -/
def revokeCtx (entityId database : String) : Ctx :=
  { username := some entityId, password := none,
    expiration := none, database := some database }

/-- `revoke` from the source: validate, render the revocation template
with default escaping inside `try`, split, run in one transaction,
destroy in `finally`, and return the entity id. -/
def revoke (inputs : SqlProviderInputs) (ephemeralPort : Nat) (bk : Backend)
    (entityId : String) (s : DBState) : RunOut String :=
  match validateProviderInputs inputs with
  | .error e => ⟨.error e, [], s⟩
  | .ok providerInputs =>
    let (host, port) := resolvedEndpoint providerInputs ephemeralPort
    let db := getClient { providerInputs with host := host, port := port }
    let ctx := revokeCtx entityId providerInputs.database
    match renderTmpl providerInputs.revocationStatement true ctx with
    | .error _ =>
      ⟨.error .template,
       withTunnel providerInputs ephemeralPort
         [.clientOpened db.connection, .clientClosed], s⟩
    | .ok revokeStatement =>
      let queries := splitStatements revokeStatement
      match runQueries bk queries s with
      | none =>
        ⟨.error .execution,
         withTunnel providerInputs ephemeralPort
           [.clientOpened db.connection, .rendered ctx true,
            .txRan queries false, .clientClosed], s⟩
      | some s2 =>
        ⟨.ok entityId,
         withTunnel providerInputs ephemeralPort
           [.clientOpened db.connection, .rendered ctx true,
            .txRan queries true, .clientClosed], s2⟩

/-- The context `renew` renders with: username, expiration, database. -/
def renewCtx (entityId expiration database : String) : Ctx :=
  { username := some entityId, password := none,
    expiration := some expiration, database := some database }

/-- `renew` from the source: validate; with no renewal template return
`\x7b entityId \x7d` immediately.  Otherwise the session is opened and
the template compiled/rendered BEFORE the `try` block, so a rendering
failure propagates without `db.destroy()`; a rendered empty string
skips execution (`if (renewStatement)` on the rendered text); otherwise
split, run in one transaction, destroy in `finally`. -/
def renew (inputs : SqlProviderInputs) (ephemeralPort : Nat) (bk : Backend)
    (isoOf : Int → String) (entityId : String) (expireAt : Int)
    (s : DBState) : RunOut String :=
  match validateProviderInputs inputs with
  | .error e => ⟨.error e, [], s⟩
  | .ok providerInputs =>
    match providerInputs.renewStatement with
    | none => ⟨.ok entityId, [], s⟩
    | some tmpl =>
      let (host, port) := resolvedEndpoint providerInputs ephemeralPort
      let db := getClient { providerInputs with host := host, port := port }
      let expiration := isoOf expireAt
      let ctx := renewCtx entityId expiration providerInputs.database
      match renderTmpl tmpl true ctx with
      | .error _ =>
        ⟨.error .template,
         withTunnel providerInputs ephemeralPort [.clientOpened db.connection], s⟩
      | .ok renewStatement =>
        if renewStatement = "" then
          ⟨.ok entityId,
           withTunnel providerInputs ephemeralPort
             [.clientOpened db.connection, .clientClosed], s⟩
        else
          let queries := splitStatements renewStatement
          match runQueries bk queries s with
          | none =>
            ⟨.error .execution,
             withTunnel providerInputs ephemeralPort
               [.clientOpened db.connection, .rendered ctx true,
                .txRan queries false, .clientClosed], s⟩
          | some s2 =>
            ⟨.ok entityId,
             withTunnel providerInputs ephemeralPort
               [.clientOpened db.connection, .rendered ctx true,
                .txRan queries true, .clientClosed], s2⟩

/-! ## Helper lemmas -/

theorem getD_mem_of_lt {α : Type} {l : List α} {i : Nat} (d : α)
    (h : i < l.length) : l.getD i d ∈ l := by
  induction l generalizing i with
  | nil => simp at h
  | cons a t ih =>
    cases i with
    | zero => simp [List.getD]
    | succ j =>
      have hj : j < t.length := by simpa using h
      simpa [List.getD] using Or.inr (ih (i := j) hj)

theorem nanoidGen_length (alphabet : String) (size : Nat) (rng : Nat → Nat) :
    (nanoidGen alphabet size rng).length = size := by
  show ((List.range size).map _).length = size
  rw [List.length_map, List.length_range]

theorem nanoidGen_toList (alphabet : String) (size : Nat) (rng : Nat → Nat) :
    (nanoidGen alphabet size rng).toList
      = (List.range size).map
          (fun i => alphabet.toList.getD (rng i % alphabet.length) (Char.ofNat 97)) :=
  rfl

theorem nanoidGen_mem (alphabet : String) (size : Nat) (rng : Nat → Nat)
    (ha : 0 < alphabet.length) :
    ∀ c ∈ (nanoidGen alphabet size rng).toList, c ∈ alphabet.toList := by
  intro c hc
  rw [nanoidGen_toList, List.mem_map] at hc
  obtain ⟨i, _, rfl⟩ := hc
  exact getD_mem_of_lt _ (Nat.mod_lt _ ha)

theorem jsToUpperCase_length (s : String) : (jsToUpperCase s).length = s.length := by
  show (s.toList.map Char.toUpper).length = s.length
  rw [List.length_map]
  rfl

theorem jsToUpperCase_toList (s : String) :
    (jsToUpperCase s).toList = s.toList.map Char.toUpper :=
  rfl

theorem toUpper_mem_alphaNumeric :
    ∀ c ∈ alphaNumericCharset.toList, Char.toUpper c ∈ alphaNumericCharset.toList := by
  decide

theorem toUpper_idem_alphaNumeric :
    ∀ c ∈ alphaNumericCharset.toList, Char.toUpper (Char.toUpper c) = Char.toUpper c := by
  decide

theorem validateProviderInputs_ok_eq {inputs a : SqlProviderInputs}
    (h : validateProviderInputs inputs = .ok a) : a = inputs := by
  unfold validateProviderInputs at h
  split at h <;> simp_all

@[simp] theorem countOpened_withTunnel (pi : SqlProviderInputs) (ep : Nat)
    (evs : List Event) : countOpened (withTunnel pi ep evs) = countOpened evs := by
  unfold withTunnel
  cases pi.projectGatewayId <;> simp [countOpened, List.countP_cons]

@[simp] theorem countClosed_withTunnel (pi : SqlProviderInputs) (ep : Nat)
    (evs : List Event) : countClosed (withTunnel pi ep evs) = countClosed evs := by
  unfold withTunnel
  cases pi.projectGatewayId <;> simp [countClosed, List.countP_cons]

@[simp] theorem clientOpened_mem_withTunnel {c : KnexConnection}
    {pi : SqlProviderInputs} {ep : Nat} {evs : List Event} :
    Event.clientOpened c ∈ withTunnel pi ep evs ↔ Event.clientOpened c ∈ evs := by
  unfold withTunnel
  cases pi.projectGatewayId <;> simp

@[simp] theorem rendered_mem_withTunnel {ctx : Ctx} {b : Bool}
    {pi : SqlProviderInputs} {ep : Nat} {evs : List Event} :
    Event.rendered ctx b ∈ withTunnel pi ep evs ↔ Event.rendered ctx b ∈ evs := by
  unfold withTunnel
  cases pi.projectGatewayId <;> simp

@[simp] theorem txRan_mem_withTunnel {qs : List String} {b : Bool}
    {pi : SqlProviderInputs} {ep : Nat} {evs : List Event} :
    Event.txRan qs b ∈ withTunnel pi ep evs ↔ Event.txRan qs b ∈ evs := by
  unfold withTunnel
  cases pi.projectGatewayId <;> simp

/-- Whether an event is a transaction execution. -/
def isTxEvent : Event → Bool
  | .txRan _ _ => true
  | _ => false

@[simp] theorem countOpened_nil : countOpened [] = 0 := rfl

@[simp] theorem countClosed_nil : countClosed [] = 0 := rfl

@[simp] theorem countOpened_cons_opened (c : KnexConnection) (evs : List Event) :
    countOpened (Event.clientOpened c :: evs) = countOpened evs + 1 := by
  simp [countOpened, List.countP_cons]

@[simp] theorem countOpened_cons_closed (evs : List Event) :
    countOpened (Event.clientClosed :: evs) = countOpened evs := by
  simp [countOpened, List.countP_cons]

@[simp] theorem countOpened_cons_rendered (ctx : Ctx) (b : Bool) (evs : List Event) :
    countOpened (Event.rendered ctx b :: evs) = countOpened evs := by
  simp [countOpened, List.countP_cons]

@[simp] theorem countOpened_cons_tx (qs : List String) (b : Bool) (evs : List Event) :
    countOpened (Event.txRan qs b :: evs) = countOpened evs := by
  simp [countOpened, List.countP_cons]

@[simp] theorem countOpened_cons_tunnel (p : Nat) (evs : List Event) :
    countOpened (Event.tunnelOpened p :: evs) = countOpened evs := by
  simp [countOpened, List.countP_cons]

@[simp] theorem countClosed_cons_opened (c : KnexConnection) (evs : List Event) :
    countClosed (Event.clientOpened c :: evs) = countClosed evs := by
  simp [countClosed, List.countP_cons]

@[simp] theorem countClosed_cons_closed (evs : List Event) :
    countClosed (Event.clientClosed :: evs) = countClosed evs + 1 := by
  simp [countClosed, List.countP_cons]

@[simp] theorem countClosed_cons_rendered (ctx : Ctx) (b : Bool) (evs : List Event) :
    countClosed (Event.rendered ctx b :: evs) = countClosed evs := by
  simp [countClosed, List.countP_cons]

@[simp] theorem countClosed_cons_tx (qs : List String) (b : Bool) (evs : List Event) :
    countClosed (Event.txRan qs b :: evs) = countClosed evs := by
  simp [countClosed, List.countP_cons]

@[simp] theorem countClosed_cons_tunnel (p : Nat) (evs : List Event) :
    countClosed (Event.tunnelOpened p :: evs) = countClosed evs := by
  simp [countClosed, List.countP_cons]

@[simp] theorem filter_isTx_withTunnel (pi : SqlProviderInputs) (ep : Nat)
    (evs : List Event) :
    (withTunnel pi ep evs).filter isTxEvent = evs.filter isTxEvent := by
  unfold withTunnel
  cases pi.projectGatewayId <;> simp [isTxEvent]

@[simp] theorem tunnelOpened_mem_withTunnel {p : Nat}
    {pi : SqlProviderInputs} {ep : Nat} {evs : List Event} :
    Event.tunnelOpened p ∈ withTunnel pi ep evs
      ↔ ((pi.projectGatewayId.isSome ∧ p = ep) ∨ Event.tunnelOpened p ∈ evs) := by
  unfold withTunnel
  cases pi.projectGatewayId <;> simp

/-! ## Concrete fixtures for witnesses and counterexamples -/

/-- A valid direct-path (no gateway) provider configuration. -/
def cfg0 : SqlProviderInputs :=
  { client := SqlProviders.Postgres
    host := "db.example.com"
    port := 5432
    database := "d"
    username := "admin"
    password := "pw"
    ca := none
    creationStatement := Tmpl.chunks [Chunk.lit "CREATE USER u"]
    revocationStatement := Tmpl.chunks [Chunk.lit "DROP USER ", Chunk.var TmplField.username]
    renewStatement := none
    projectGatewayId := none }

/-- `cfg0` routed through a gateway. -/
def cfgGw : SqlProviderInputs := { cfg0 with projectGatewayId := some "gw" }

/-- `cfg0` pointed at a loopback host, no gateway. -/
def cfgPriv : SqlProviderInputs := { cfg0 with host := "127.0.0.1" }

/-- `cfg0` pointed at a loopback host, with a gateway. -/
def cfgPrivGw : SqlProviderInputs :=
  { cfg0 with host := "127.0.0.1", projectGatewayId := some "gw" }

/-- `cfg0` with a CA certificate configured. -/
def cfgCa : SqlProviderInputs := { cfg0 with ca := some "CERT" }

/-- A backend on which every statement succeeds, recording it. -/
def bkOk : Backend := ⟨fun q s => some (q :: s)⟩

/-- A backend on which every statement fails. -/
def bkFail : Backend := ⟨fun _ _ => none⟩

/-! ## Claim theorems -/

/-- C4 counterexample: the password alphabet in the source has exactly
68 characters, not 69 as the claim states. -/
theorem c4_charset_size_counterexample :
    passwordCharset.length = 68 ∧ passwordCharset.length ≠ 69 := by
  constructor <;> decide

/-- C4 (amended: the fixed alphabet has 68 characters, not 69): every
generated password draws only on the fixed 68-character alphabet and
has length 48 (30 for Oracle); every generated username is 32
alphanumeric characters and entirely uppercase for Oracle. -/
theorem c4_credential_shapes (provider : SqlProviders) (rngP rngU : Nat → Nat) :
    (generatePassword provider rngP).length
      = (if provider = SqlProviders.Oracle then 30 else 48)
    ∧ (∀ c ∈ (generatePassword provider rngP).toList, c ∈ passwordCharset.toList)
    ∧ passwordCharset.length = 68
    ∧ (generateUsername provider rngU).length = 32
    ∧ (∀ c ∈ (generateUsername provider rngU).toList, c ∈ alphaNumericCharset.toList)
    ∧ (provider = SqlProviders.Oracle →
        ∀ c ∈ (generateUsername provider rngU).toList, Char.toUpper c = c) := by
  refine ⟨?_, ?_, by decide, ?_, ?_, ?_⟩
  · unfold generatePassword customAlphabet
    rw [nanoidGen_length]
    cases provider <;> simp
  · intro c hc
    exact nanoidGen_mem _ _ _ (by decide) c hc
  · unfold generateUsername alphaNumericNanoId
    split
    · rw [jsToUpperCase_length, nanoidGen_length]
    · exact nanoidGen_length _ _ _
  · intro c hc
    unfold generateUsername at hc
    split at hc
    · rw [jsToUpperCase_toList, List.mem_map] at hc
      obtain ⟨c0, hc0, rfl⟩ := hc
      exact toUpper_mem_alphaNumeric c0 (nanoidGen_mem _ _ _ (by decide) c0 hc0)
    · exact nanoidGen_mem _ _ _ (by decide) c hc
  · intro hp c hc
    subst hp
    unfold generateUsername at hc
    rw [if_pos rfl, jsToUpperCase_toList, List.mem_map] at hc
    obtain ⟨c0, hc0, rfl⟩ := hc
    exact toUpper_idem_alphaNumeric c0 (nanoidGen_mem _ _ _ (by decide) c0 hc0)

/-- Witness for `c4_credential_shapes` at `provider = Oracle` with a
concrete random source: the uppercase clause applies to the first
character of the generated username. -/
theorem c4_credential_shapes_witness :
    SqlProviders.Oracle = SqlProviders.Oracle
    ∧ (generateUsername SqlProviders.Oracle (fun _ => 0)).toList.headI
        ∈ (generateUsername SqlProviders.Oracle (fun _ => 0)).toList
    ∧ Char.toUpper ((generateUsername SqlProviders.Oracle (fun _ => 0)).toList.headI)
        = (generateUsername SqlProviders.Oracle (fun _ => 0)).toList.headI :=
  ⟨rfl, by decide,
    (c4_credential_shapes SqlProviders.Oracle (fun _ => 0) (fun _ => 0)).2.2.2.2.2
      rfl _ (by decide)⟩

/-- C2 counterexample: on the concrete valid config `cfg0` and a
backend whose liveness probe statement fails, `validateConnection`
opens one session, propagates the error, and closes the session zero
times (the source has no `try/finally` around the probe), refuting
"closed exactly once ... for every entry point and every outcome". -/
theorem c2_session_close_counterexample :
    (validateConnection cfg0 0 bkFail []).result = Except.error EngineError.execution
    ∧ countOpened (validateConnection cfg0 0 bkFail []).events = 1
    ∧ countClosed (validateConnection cfg0 0 bkFail []).events = 0 := by
  refine ⟨by decide, by decide, by decide⟩

/-- C2 (amended): `create` and `revoke` close the session exactly as
often as they open it on every outcome; `validateConnection` closes it
only when it returns `true` (a failed probe leaks the session); `renew`
closes it exactly as often as it opens it except on template-rendering
failure, where the session stays open. -/
theorem c2_session_release_amended (inputs : SqlProviderInputs)
    (ephemeralPort : Nat) (bk : Backend) (rngU rngP : Nat → Nat)
    (isoOf : Int → String) (entityId : String) (expireAt : Int) (s : DBState) :
    countClosed (create inputs ephemeralPort bk rngU rngP isoOf expireAt s).events
      = countOpened (create inputs ephemeralPort bk rngU rngP isoOf expireAt s).events
    ∧ countClosed (revoke inputs ephemeralPort bk entityId s).events
      = countOpened (revoke inputs ephemeralPort bk entityId s).events
    ∧ countClosed (validateConnection inputs ephemeralPort bk s).events
      = (if (validateConnection inputs ephemeralPort bk s).result = Except.ok true
         then countOpened (validateConnection inputs ephemeralPort bk s).events
         else 0)
    ∧ countClosed (renew inputs ephemeralPort bk isoOf entityId expireAt s).events
      = (if (renew inputs ephemeralPort bk isoOf entityId expireAt s).result
            = Except.error EngineError.template
         then 0
         else countOpened (renew inputs ephemeralPort bk isoOf entityId expireAt s).events) := by
  refine ⟨?_, ?_, ?_, ?_⟩
  · unfold create
    dsimp only
    repeat' (first | split | dsimp only)
    all_goals simp_all
  · unfold revoke
    dsimp only
    repeat' (first | split | dsimp only)
    all_goals simp_all
  · unfold validateConnection
    dsimp only
    repeat' (first | split | dsimp only)
    all_goals simp_all
  · unfold renew
    dsimp only
    repeat' (first | split | dsimp only)
    all_goals simp_all

/-- C3 counterexample: on the concrete valid config `cfg0` and a
backend whose probe statement fails, `validateConnection` propagates an
exception rather than returning `false`, refuting "returns false ...
exactly when ... the liveness probe statement failed". -/
theorem c3_probe_failure_counterexample :
    (validateConnection cfg0 0 bkFail []).result = Except.error EngineError.execution
    ∧ (validateConnection cfg0 0 bkFail []).result ≠ Except.ok false := by
  refine ⟨by decide, by decide⟩

/-- C3 (amended): `validateConnection` returns `true` when the backend
is reachable with the configured admin credentials and never returns
`false`; a failed liveness probe propagates as an exception, as do
validation errors. -/
theorem c3_validate_connection_amended (inputs : SqlProviderInputs)
    (ephemeralPort : Nat) (bk : Backend) (s : DBState) :
    (validateConnection inputs ephemeralPort bk s).result ≠ Except.ok false
    ∧ (∀ s2, bk.run (testStatementFor inputs.client) s = some s2 →
        validateProviderInputs inputs = Except.ok inputs →
        (validateConnection inputs ephemeralPort bk s).result = Except.ok true)
    ∧ (bk.run (testStatementFor inputs.client) s = none →
        validateProviderInputs inputs = Except.ok inputs →
        (validateConnection inputs ephemeralPort bk s).result
          = Except.error EngineError.execution)
    ∧ (validateProviderInputs inputs = Except.error EngineError.validation →
        (validateConnection inputs ephemeralPort bk s).result
          = Except.error EngineError.validation) := by
  refine ⟨?_, ?_, ?_, ?_⟩
  · unfold validateConnection
    dsimp only
    repeat' (first | split | dsimp only)
    all_goals simp_all
  · intro s2 hrun hval
    unfold validateConnection
    dsimp only
    repeat' (first | split | dsimp only)
    all_goals simp_all
  · intro hrun hval
    unfold validateConnection
    dsimp only
    repeat' (first | split | dsimp only)
    all_goals simp_all
  · intro hval
    unfold validateConnection
    dsimp only
    repeat' (first | split | dsimp only)
    all_goals simp_all

/-- Witness for `c3_validate_connection_amended`: concrete reachable
backend and valid config give `Except.ok true`. -/
theorem c3_validate_connection_amended_witness :
    bkOk.run (testStatementFor cfg0.client) [] = some ["SELECT 1"]
    ∧ validateProviderInputs cfg0 = Except.ok cfg0
    ∧ (validateConnection cfg0 0 bkOk []).result = Except.ok true :=
  ⟨by decide, by decide,
    (c3_validate_connection_amended cfg0 0 bkOk []).2.1 ["SELECT 1"]
      (by decide) (by decide)⟩

/-- C1: `create` runs at most one backend transaction; the transaction
executes exactly the statements obtained by rendering the creation
template (with the create context) and splitting on the separator; if
the batch fails the backend state is exactly the initial state (full
rollback, no partial credential), and a failed `create` propagates the
execution error with the state unchanged. -/
theorem c1_create_transactional (inputs : SqlProviderInputs) (ephemeralPort : Nat)
    (bk : Backend) (rngU rngP : Nat → Nat) (isoOf : Int → String) (expireAt : Int)
    (s : DBState) :
    ((create inputs ephemeralPort bk rngU rngP isoOf expireAt s).events.filter isTxEvent).length ≤ 1
    ∧ ((create inputs ephemeralPort bk rngU rngP isoOf expireAt s).result
          = Except.error EngineError.execution →
        (create inputs ephemeralPort bk rngU rngP isoOf expireAt s).state = s)
    ∧ (∀ qs c, Event.txRan qs c
          ∈ (create inputs ephemeralPort bk rngU rngP isoOf expireAt s).events →
        ∃ rendered,
          renderTmpl inputs.creationStatement false
              (createCtx (generateUsername inputs.client rngU)
                (generatePassword inputs.client rngP) (isoOf expireAt) inputs.database)
            = Except.ok rendered
          ∧ qs = splitStatements rendered)
    ∧ (∀ qs, Event.txRan qs false
          ∈ (create inputs ephemeralPort bk rngU rngP isoOf expireAt s).events →
        runQueries bk qs s = none
          ∧ (create inputs ephemeralPort bk rngU rngP isoOf expireAt s).state = s)
    ∧ (∀ qs, Event.txRan qs true
          ∈ (create inputs ephemeralPort bk rngU rngP isoOf expireAt s).events →
        runQueries bk qs s
          = some (create inputs ephemeralPort bk rngU rngP isoOf expireAt s).state) := by
  unfold create
  dsimp only
  split
  · refine ⟨by simp, fun _ => rfl, ?_, ?_, ?_⟩
    · intro qs c h
      simp at h
    · intro qs h
      simp at h
    · intro qs h
      simp at h
  · rename_i a heqV
    obtain rfl : a = inputs := validateProviderInputs_ok_eq heqV
    split
    · refine ⟨by simp [isTxEvent], fun _ => rfl, ?_, ?_, ?_⟩
      · intro qs c h
        simp at h
      · intro qs h
        simp at h
      · intro qs h
        simp at h
    · rename_i cs heqR
      split
      · rename_i heqQ
        refine ⟨by simp [isTxEvent], fun _ => rfl, ?_, ?_, ?_⟩
        · intro qs c h
          simp at h
          exact ⟨cs, heqR, h.1⟩
        · intro qs h
          simp at h
          rw [h]
          exact ⟨heqQ, rfl⟩
        · intro qs h
          simp at h
      · rename_i s2 heqQ
        refine ⟨by simp [isTxEvent], ?_, ?_, ?_, ?_⟩
        · intro hres
          simp at hres
        · intro qs c h
          simp at h
          exact ⟨cs, heqR, h.1⟩
        · intro qs h
          simp at h
        · intro qs h
          simp at h
          rw [h]
          exact heqQ

/-- Witness for `c1_create_transactional`: a concrete successful
`create` on `cfg0` commits exactly the single split statement. -/
theorem c1_create_transactional_witness :
    Event.txRan ["CREATE USER u"] true
        ∈ (create cfg0 0 bkOk (fun _ => 0) (fun _ => 0) (fun _ => "E") 0 []).events
    ∧ runQueries bkOk ["CREATE USER u"] []
        = some (create cfg0 0 bkOk (fun _ => 0) (fun _ => 0) (fun _ => "E") 0 []).state :=
  ⟨by decide,
    (c1_create_transactional cfg0 0 bkOk (fun _ => 0) (fun _ => 0)
        (fun _ => "E") 0 []).2.2.2.2 ["CREATE USER u"] (by decide)⟩

theorem validateConnection_routing (inputs : SqlProviderInputs) (ephemeralPort : Nat)
    (bk : Backend) (s : DBState) :
    (∀ conn, Event.clientOpened conn ∈ (validateConnection inputs ephemeralPort bk s).events →
        conn.host = (resolvedEndpoint inputs ephemeralPort).1
          ∧ conn.port = (resolvedEndpoint inputs ephemeralPort).2)
    ∧ (∀ p, Event.tunnelOpened p ∈ (validateConnection inputs ephemeralPort bk s).events →
        inputs.projectGatewayId.isSome = true ∧ p = ephemeralPort)
    ∧ (inputs.projectGatewayId.isSome = true →
        ∀ conn, Event.clientOpened conn ∈ (validateConnection inputs ephemeralPort bk s).events →
          Event.tunnelOpened ephemeralPort ∈ (validateConnection inputs ephemeralPort bk s).events) := by
  unfold validateConnection
  dsimp only
  split
  · refine ⟨?_, ?_, ?_⟩
    · intro conn h
      simp at h
    · intro p h
      simp at h
    · intro hg conn h
      simp at h
  · rename_i a heqV
    obtain rfl : a = inputs := validateProviderInputs_ok_eq heqV
    repeat' (first | split | dsimp only)
    all_goals refine ⟨?_, ?_, ?_⟩
    all_goals first
      | (intro conn h
         simp at h
         subst h
         simp [getClient]
         done)
      | (intro p h
         simp at h
         exact ⟨h.1, h.2⟩)
      | (intro hg conn h
         simp [hg]
         done)
      | (intro conn h
         simp at h
         done)
      | (intro hg conn h
         simp at h
         done)

theorem create_routing (inputs : SqlProviderInputs) (ephemeralPort : Nat)
    (bk : Backend) (rngU rngP : Nat → Nat) (isoOf : Int → String) (expireAt : Int)
    (s : DBState) :
    (∀ conn, Event.clientOpened conn
          ∈ (create inputs ephemeralPort bk rngU rngP isoOf expireAt s).events →
        conn.host = (resolvedEndpoint inputs ephemeralPort).1
          ∧ conn.port = (resolvedEndpoint inputs ephemeralPort).2)
    ∧ (∀ p, Event.tunnelOpened p
          ∈ (create inputs ephemeralPort bk rngU rngP isoOf expireAt s).events →
        inputs.projectGatewayId.isSome = true ∧ p = ephemeralPort)
    ∧ (inputs.projectGatewayId.isSome = true →
        ∀ conn, Event.clientOpened conn
            ∈ (create inputs ephemeralPort bk rngU rngP isoOf expireAt s).events →
          Event.tunnelOpened ephemeralPort
            ∈ (create inputs ephemeralPort bk rngU rngP isoOf expireAt s).events) := by
  unfold create
  dsimp only
  split
  · refine ⟨?_, ?_, ?_⟩
    · intro conn h
      simp at h
    · intro p h
      simp at h
    · intro hg conn h
      simp at h
  · rename_i a heqV
    obtain rfl : a = inputs := validateProviderInputs_ok_eq heqV
    repeat' (first | split | dsimp only)
    all_goals refine ⟨?_, ?_, ?_⟩
    all_goals first
      | (intro conn h
         simp at h
         subst h
         simp [getClient]
         done)
      | (intro p h
         simp at h
         exact ⟨h.1, h.2⟩)
      | (intro hg conn h
         simp [hg]
         done)
      | (intro conn h
         simp at h
         done)
      | (intro hg conn h
         simp at h
         done)

theorem revoke_routing (inputs : SqlProviderInputs) (ephemeralPort : Nat)
    (bk : Backend) (entityId : String) (s : DBState) :
    (∀ conn, Event.clientOpened conn ∈ (revoke inputs ephemeralPort bk entityId s).events →
        conn.host = (resolvedEndpoint inputs ephemeralPort).1
          ∧ conn.port = (resolvedEndpoint inputs ephemeralPort).2)
    ∧ (∀ p, Event.tunnelOpened p ∈ (revoke inputs ephemeralPort bk entityId s).events →
        inputs.projectGatewayId.isSome = true ∧ p = ephemeralPort)
    ∧ (inputs.projectGatewayId.isSome = true →
        ∀ conn, Event.clientOpened conn ∈ (revoke inputs ephemeralPort bk entityId s).events →
          Event.tunnelOpened ephemeralPort
            ∈ (revoke inputs ephemeralPort bk entityId s).events) := by
  unfold revoke
  dsimp only
  split
  · refine ⟨?_, ?_, ?_⟩
    · intro conn h
      simp at h
    · intro p h
      simp at h
    · intro hg conn h
      simp at h
  · rename_i a heqV
    obtain rfl : a = inputs := validateProviderInputs_ok_eq heqV
    repeat' (first | split | dsimp only)
    all_goals refine ⟨?_, ?_, ?_⟩
    all_goals first
      | (intro conn h
         simp at h
         subst h
         simp [getClient]
         done)
      | (intro p h
         simp at h
         exact ⟨h.1, h.2⟩)
      | (intro hg conn h
         simp [hg]
         done)
      | (intro conn h
         simp at h
         done)
      | (intro hg conn h
         simp at h
         done)

theorem renew_routing (inputs : SqlProviderInputs) (ephemeralPort : Nat)
    (bk : Backend) (isoOf : Int → String) (entityId : String) (expireAt : Int)
    (s : DBState) :
    (∀ conn, Event.clientOpened conn
          ∈ (renew inputs ephemeralPort bk isoOf entityId expireAt s).events →
        conn.host = (resolvedEndpoint inputs ephemeralPort).1
          ∧ conn.port = (resolvedEndpoint inputs ephemeralPort).2)
    ∧ (∀ p, Event.tunnelOpened p
          ∈ (renew inputs ephemeralPort bk isoOf entityId expireAt s).events →
        inputs.projectGatewayId.isSome = true ∧ p = ephemeralPort)
    ∧ (inputs.projectGatewayId.isSome = true →
        ∀ conn, Event.clientOpened conn
            ∈ (renew inputs ephemeralPort bk isoOf entityId expireAt s).events →
          Event.tunnelOpened ephemeralPort
            ∈ (renew inputs ephemeralPort bk isoOf entityId expireAt s).events) := by
  unfold renew
  dsimp only
  split
  · refine ⟨?_, ?_, ?_⟩
    · intro conn h
      simp at h
    · intro p h
      simp at h
    · intro hg conn h
      simp at h
  · rename_i a heqV
    obtain rfl : a = inputs := validateProviderInputs_ok_eq heqV
    repeat' (first | split | dsimp only)
    all_goals refine ⟨?_, ?_, ?_⟩
    all_goals first
      | (intro conn h
         simp at h
         subst h
         simp [getClient]
         done)
      | (intro p h
         simp at h
         exact ⟨h.1, h.2⟩)
      | (intro hg conn h
         simp [hg]
         done)
      | (intro conn h
         simp at h
         done)
      | (intro hg conn h
         simp at h
         done)
      | (intro conn h
         simp at h)
      | (intro hg conn h
         simp at h)

/-- C5: with a relay identifier (`projectGatewayId`) set, every entry
point runs the backend operation inside the gateway tunnel callback,
whose endpoint is `("localhost", ephemeral local port)`; without one,
the operation runs directly against the configured host and port.
Concretely: the resolved endpoint is `("localhost", ephemeralPort)`
exactly when a relay identifier is present and `(host, port)` of the
config otherwise; every backend client any entry point opens uses that
endpoint; tunnel events occur only on the gateway path with the
ephemeral port; and on the gateway path every opened client sits inside
an opened tunnel. -/
theorem c5_gateway_routing (inputs : SqlProviderInputs) (ephemeralPort : Nat)
    (bk : Backend) (rngU rngP : Nat → Nat) (isoOf : Int → String)
    (entityId : String) (expireAt : Int) (s : DBState) :
    (∀ gid, inputs.projectGatewayId = some gid →
        resolvedEndpoint inputs ephemeralPort = ("localhost", ephemeralPort))
    ∧ (inputs.projectGatewayId = none →
        resolvedEndpoint inputs ephemeralPort = (inputs.host, inputs.port))
    ∧ (∀ conn, Event.clientOpened conn
          ∈ (validateConnection inputs ephemeralPort bk s).events →
        conn.host = (resolvedEndpoint inputs ephemeralPort).1
          ∧ conn.port = (resolvedEndpoint inputs ephemeralPort).2)
    ∧ (∀ conn, Event.clientOpened conn
          ∈ (create inputs ephemeralPort bk rngU rngP isoOf expireAt s).events →
        conn.host = (resolvedEndpoint inputs ephemeralPort).1
          ∧ conn.port = (resolvedEndpoint inputs ephemeralPort).2)
    ∧ (∀ conn, Event.clientOpened conn
          ∈ (revoke inputs ephemeralPort bk entityId s).events →
        conn.host = (resolvedEndpoint inputs ephemeralPort).1
          ∧ conn.port = (resolvedEndpoint inputs ephemeralPort).2)
    ∧ (∀ conn, Event.clientOpened conn
          ∈ (renew inputs ephemeralPort bk isoOf entityId expireAt s).events →
        conn.host = (resolvedEndpoint inputs ephemeralPort).1
          ∧ conn.port = (resolvedEndpoint inputs ephemeralPort).2)
    ∧ (∀ p, Event.tunnelOpened p
          ∈ (validateConnection inputs ephemeralPort bk s).events →
        inputs.projectGatewayId.isSome = true ∧ p = ephemeralPort)
    ∧ (∀ p, Event.tunnelOpened p
          ∈ (create inputs ephemeralPort bk rngU rngP isoOf expireAt s).events →
        inputs.projectGatewayId.isSome = true ∧ p = ephemeralPort)
    ∧ (∀ p, Event.tunnelOpened p
          ∈ (revoke inputs ephemeralPort bk entityId s).events →
        inputs.projectGatewayId.isSome = true ∧ p = ephemeralPort)
    ∧ (∀ p, Event.tunnelOpened p
          ∈ (renew inputs ephemeralPort bk isoOf entityId expireAt s).events →
        inputs.projectGatewayId.isSome = true ∧ p = ephemeralPort)
    ∧ (inputs.projectGatewayId.isSome = true →
        (∀ conn, Event.clientOpened conn
            ∈ (validateConnection inputs ephemeralPort bk s).events →
          Event.tunnelOpened ephemeralPort
            ∈ (validateConnection inputs ephemeralPort bk s).events)
        ∧ (∀ conn, Event.clientOpened conn
            ∈ (create inputs ephemeralPort bk rngU rngP isoOf expireAt s).events →
          Event.tunnelOpened ephemeralPort
            ∈ (create inputs ephemeralPort bk rngU rngP isoOf expireAt s).events)
        ∧ (∀ conn, Event.clientOpened conn
            ∈ (revoke inputs ephemeralPort bk entityId s).events →
          Event.tunnelOpened ephemeralPort
            ∈ (revoke inputs ephemeralPort bk entityId s).events)
        ∧ (∀ conn, Event.clientOpened conn
            ∈ (renew inputs ephemeralPort bk isoOf entityId expireAt s).events →
          Event.tunnelOpened ephemeralPort
            ∈ (renew inputs ephemeralPort bk isoOf entityId expireAt s).events)) := by
  refine ⟨?_, ?_,
    (validateConnection_routing inputs ephemeralPort bk s).1,
    (create_routing inputs ephemeralPort bk rngU rngP isoOf expireAt s).1,
    (revoke_routing inputs ephemeralPort bk entityId s).1,
    (renew_routing inputs ephemeralPort bk isoOf entityId expireAt s).1,
    (validateConnection_routing inputs ephemeralPort bk s).2.1,
    (create_routing inputs ephemeralPort bk rngU rngP isoOf expireAt s).2.1,
    (revoke_routing inputs ephemeralPort bk entityId s).2.1,
    (renew_routing inputs ephemeralPort bk isoOf entityId expireAt s).2.1,
    ?_⟩
  · intro gid hg
    simp [resolvedEndpoint, hg]
  · intro hg
    simp [resolvedEndpoint, hg]
  · intro hg
    exact ⟨(validateConnection_routing inputs ephemeralPort bk s).2.2 hg,
      (create_routing inputs ephemeralPort bk rngU rngP isoOf expireAt s).2.2 hg,
      (revoke_routing inputs ephemeralPort bk entityId s).2.2 hg,
      (renew_routing inputs ephemeralPort bk isoOf entityId expireAt s).2.2 hg⟩

/-- Witness for `c5_gateway_routing`: on the concrete gateway config
the resolved endpoint is the tunnel's local one, and a concrete opened
client during `create` uses it. -/
theorem c5_gateway_routing_witness :
    cfgGw.projectGatewayId = some "gw"
    ∧ resolvedEndpoint cfgGw 7 = ("localhost", 7) :=
  ⟨rfl,
    (c5_gateway_routing cfgGw 7 bkOk (fun _ => 0) (fun _ => 0) (fun _ => "E")
        "u" 0 []).1 "gw" rfl⟩

/-- C6: for a private/loopback host literal, input validation rejects
with a validation error when no relay identifier is configured and
accepts when one is; and when validation rejects, every entry point
returns the validation error with an empty event trace, i.e. before any
backend or relay connection is attempted. -/
theorem c6_host_validation (inputs : SqlProviderInputs)
    (hPriv : isPrivateOrLoopbackHost inputs.host = true)
    (ephemeralPort : Nat) (bk : Backend) (rngU rngP : Nat → Nat)
    (isoOf : Int → String) (entityId : String) (expireAt : Int) (s : DBState) :
    (inputs.projectGatewayId = none →
        validateProviderInputs inputs = Except.error EngineError.validation)
    ∧ (∀ gid, inputs.projectGatewayId = some gid →
        validateProviderInputs inputs = Except.ok inputs)
    ∧ (validateProviderInputs inputs = Except.error EngineError.validation →
        (validateConnection inputs ephemeralPort bk s).events = []
        ∧ (validateConnection inputs ephemeralPort bk s).result
            = Except.error EngineError.validation
        ∧ (create inputs ephemeralPort bk rngU rngP isoOf expireAt s).events = []
        ∧ (create inputs ephemeralPort bk rngU rngP isoOf expireAt s).result
            = Except.error EngineError.validation
        ∧ (revoke inputs ephemeralPort bk entityId s).events = []
        ∧ (revoke inputs ephemeralPort bk entityId s).result
            = Except.error EngineError.validation
        ∧ (renew inputs ephemeralPort bk isoOf entityId expireAt s).events = []
        ∧ (renew inputs ephemeralPort bk isoOf entityId expireAt s).result
            = Except.error EngineError.validation) := by
  refine ⟨?_, ?_, ?_⟩
  · intro hg
    unfold validateProviderInputs verifyHostInputValidity
    simp [hg, hPriv]
  · intro gid hg
    unfold validateProviderInputs verifyHostInputValidity
    simp [hg]
  · intro hval
    refine ⟨?_, ?_, ?_, ?_, ?_, ?_, ?_, ?_⟩ <;>
      simp [validateConnection, create, revoke, renew, hval]

/-- Witness for `c6_host_validation`: the loopback literal `127.0.0.1`
is rejected without a gateway and accepted with one. -/
theorem c6_host_validation_witness :
    isPrivateOrLoopbackHost "127.0.0.1" = true
    ∧ validateProviderInputs cfgPriv = Except.error EngineError.validation
    ∧ validateProviderInputs cfgPrivGw = Except.ok cfgPrivGw :=
  ⟨by decide,
    (c6_host_validation cfgPriv (by decide) 0 bkOk (fun _ => 0) (fun _ => 0)
        (fun _ => "E") "u" 0 []).1 rfl,
    (c6_host_validation cfgPrivGw (by decide) 0 bkOk (fun _ => 0) (fun _ => 0)
        (fun _ => "E") "u" 0 []).2.1 "gw" rfl⟩

/-- C7: when the config has no renewal statement template and passes
validation, `renew` returns the entity id unchanged with an empty event
trace (no session opened, no template rendered, no backend I/O) and the
backend state untouched. -/
theorem c7_renew_noop (inputs : SqlProviderInputs) (ephemeralPort : Nat)
    (bk : Backend) (isoOf : Int → String) (entityId : String) (expireAt : Int)
    (s : DBState) (hR : inputs.renewStatement = none)
    (hV : validateProviderInputs inputs = Except.ok inputs) :
    renew inputs ephemeralPort bk isoOf entityId expireAt s
      = ⟨Except.ok entityId, [], s⟩ := by
  unfold renew
  rw [hV]
  dsimp only
  rw [hR]

/-- Witness for `c7_renew_noop`: concrete no-renewal-template config. -/
theorem c7_renew_noop_witness :
    cfg0.renewStatement = none
    ∧ validateProviderInputs cfg0 = Except.ok cfg0
    ∧ renew cfg0 0 bkOk (fun _ => "E") "u" 0 [] = ⟨Except.ok "u", [], []⟩ :=
  ⟨rfl, by decide,
    c7_renew_noop cfg0 0 bkOk (fun _ => "E") "u" 0 [] rfl (by decide)⟩

/-- C8: every context `revoke` hands to the renderer is exactly
`\x7b username := entityId, database \x7d` (no password, no
expiration); every context `renew` hands to the renderer is exactly
`\x7b username := entityId, expiration, database \x7d` (no password);
and every context `create` renders with carries the generated
password. -/
theorem c8_render_contexts (inputs : SqlProviderInputs) (ephemeralPort : Nat)
    (bk : Backend) (rngU rngP : Nat → Nat) (isoOf : Int → String)
    (entityId : String) (expireAt : Int) (s : DBState) :
    (∀ ctx esc, Event.rendered ctx esc ∈ (revoke inputs ephemeralPort bk entityId s).events →
        ctx = { username := some entityId, password := none,
                expiration := none, database := some inputs.database })
    ∧ (∀ ctx esc, Event.rendered ctx esc
          ∈ (renew inputs ephemeralPort bk isoOf entityId expireAt s).events →
        ctx = { username := some entityId, password := none,
                expiration := some (isoOf expireAt),
                database := some inputs.database })
    ∧ (∀ ctx esc, Event.rendered ctx esc
          ∈ (create inputs ephemeralPort bk rngU rngP isoOf expireAt s).events →
        ctx.password = some (generatePassword inputs.client rngP)
          ∧ ctx.username = some (generateUsername inputs.client rngU)) := by
  refine ⟨?_, ?_, ?_⟩
  · unfold revoke
    dsimp only
    split
    · intro ctx esc h
      simp at h
    · rename_i a heqV
      obtain rfl : a = inputs := validateProviderInputs_ok_eq heqV
      repeat' (first | split | dsimp only)
      all_goals intro ctx esc h
      all_goals first
        | (simp at h
           exact h.1)
        | (simp at h
           done)
  · unfold renew
    dsimp only
    split
    · intro ctx esc h
      simp at h
    · rename_i a heqV
      obtain rfl : a = inputs := validateProviderInputs_ok_eq heqV
      repeat' (first | split | dsimp only)
      all_goals intro ctx esc h
      all_goals first
        | (simp at h
           exact h.1)
        | (simp at h
           done)
  · unfold create
    dsimp only
    split
    · intro ctx esc h
      simp at h
    · rename_i a heqV
      obtain rfl : a = inputs := validateProviderInputs_ok_eq heqV
      repeat' (first | split | dsimp only)
      all_goals intro ctx esc h
      all_goals first
        | (simp at h
           rw [h.1]
           simp [createCtx]
           done)
        | (simp at h
           done)

/-- Witness for `c8_render_contexts`: the concrete revocation render on
`cfg0` carries exactly the username/database context. -/
theorem c8_render_contexts_witness :
    Event.rendered (revokeCtx "u" cfg0.database) true
        ∈ (revoke cfg0 0 bkOk "u" []).events
    ∧ revokeCtx "u" cfg0.database
        = { username := some "u", password := none,
            expiration := none, database := some cfg0.database } :=
  ⟨by decide,
    (c8_render_contexts cfg0 0 bkOk (fun _ => 0) (fun _ => 0) (fun _ => "E")
        "u" 0 []).1 (revokeCtx "u" cfg0.database) true (by decide)⟩

/-- C9: `$getClient` enables TLS with `rejectUnauthorized := false`
exactly when a CA certificate is supplied (server-certificate
verification disabled despite the CA being passed); with no CA there is
no `ssl` option at all; and only the MsSQL dialect gets driver
`options`, whose `trustServerCertificate` is true exactly when no CA is
supplied, the CA being passed to the crypto credentials when present. -/
theorem c9_tls_options (inputs : SqlProviderInputs) :
    (∀ caStr, inputs.ca = some caStr →
        (getClient inputs).connection.ssl
          = some { rejectUnauthorized := false, ca := caStr })
    ∧ (inputs.ca = none → (getClient inputs).connection.ssl = none)
    ∧ (inputs.client = SqlProviders.MsSQL →
        (getClient inputs).connection.options
          = some { trustServerCertificate := inputs.ca.isNone,
                   cryptoCredentialsCa := inputs.ca })
    ∧ (inputs.client ≠ SqlProviders.MsSQL →
        (getClient inputs).connection.options = none) := by
  refine ⟨?_, ?_, ?_, ?_⟩
  · intro caStr hca
    simp [getClient, hca]
  · intro hca
    simp [getClient, hca]
  · intro hms
    simp [getClient, hms]
  · intro hms
    simp [getClient, hms]

/-- Witness for `c9_tls_options`: with a concrete CA the client gets
`ssl` with verification off. -/
theorem c9_tls_options_witness :
    cfgCa.ca = some "CERT"
    ∧ (getClient cfgCa).connection.ssl
        = some { rejectUnauthorized := false, ca := "CERT" } :=
  ⟨rfl, (c9_tls_options cfgCa).1 "CERT" rfl⟩

/-- C10: the creation template renders with escaping disabled
(`noEscape: true`) while the revocation and renewal templates render
with default HTML-entity escaping; and for an entityId containing `&`
the escaped revocation rendering differs from plain substitution — the
concrete revoke on `cfg0` executes the escaped statement. -/
theorem c10_escaping_asymmetry (inputs : SqlProviderInputs) (ephemeralPort : Nat)
    (bk : Backend) (rngU rngP : Nat → Nat) (isoOf : Int → String)
    (entityId : String) (expireAt : Int) (s : DBState) :
    (∀ ctx esc, Event.rendered ctx esc
          ∈ (create inputs ephemeralPort bk rngU rngP isoOf expireAt s).events →
        esc = false)
    ∧ (∀ ctx esc, Event.rendered ctx esc
          ∈ (revoke inputs ephemeralPort bk entityId s).events → esc = true)
    ∧ (∀ ctx esc, Event.rendered ctx esc
          ∈ (renew inputs ephemeralPort bk isoOf entityId expireAt s).events →
        esc = true)
    ∧ renderTmpl (Tmpl.chunks [Chunk.lit "DROP USER ", Chunk.var TmplField.username])
        true (revokeCtx "a&b" "d") = Except.ok "DROP USER a&amp;b"
    ∧ renderTmpl (Tmpl.chunks [Chunk.lit "DROP USER ", Chunk.var TmplField.username])
        false (revokeCtx "a&b" "d") = Except.ok "DROP USER a&b"
    ∧ ("DROP USER a&amp;b" : String) ≠ "DROP USER a&b"
    ∧ Event.txRan ["DROP USER a&amp", "b"] true ∈ (revoke cfg0 0 bkOk "a&b" []).events := by
  refine ⟨?_, ?_, ?_, by decide, by decide, by decide, by decide⟩
  · unfold create
    dsimp only
    split
    · intro ctx esc h
      simp at h
    · rename_i a heqV
      obtain rfl : a = inputs := validateProviderInputs_ok_eq heqV
      repeat' (first | split | dsimp only)
      all_goals intro ctx esc h
      all_goals first
        | (simp at h
           exact h.2)
        | (simp at h
           done)
  · unfold revoke
    dsimp only
    split
    · intro ctx esc h
      simp at h
    · rename_i a heqV
      obtain rfl : a = inputs := validateProviderInputs_ok_eq heqV
      repeat' (first | split | dsimp only)
      all_goals intro ctx esc h
      all_goals first
        | (simp at h
           exact h.2)
        | (simp at h
           done)
  · unfold renew
    dsimp only
    split
    · intro ctx esc h
      simp at h
    · rename_i a heqV
      obtain rfl : a = inputs := validateProviderInputs_ok_eq heqV
      repeat' (first | split | dsimp only)
      all_goals intro ctx esc h
      all_goals first
        | (simp at h
           exact h.2)
        | (simp at h
           done)

/-- Witness for `c10_escaping_asymmetry`: the concrete revocation
rendering on `cfg0` is flagged as escaped. -/
theorem c10_escaping_asymmetry_witness :
    Event.rendered (revokeCtx "a&b" cfg0.database) true
        ∈ (revoke cfg0 0 bkOk "a&b" []).events
    ∧ (true : Bool) = true :=
  ⟨by decide,
    (c10_escaping_asymmetry cfg0 0 bkOk (fun _ => 0) (fun _ => 0) (fun _ => "E")
        "a&b" 0 []).2.1 (revokeCtx "a&b" cfg0.database) true (by decide)⟩

end SqlDyn
